import Mathlib

/-!
Shallow embedding of the coordinator manager (coordinator/manager.go) of the
scroll repository: session bookkeeping, proof handling, session collection,
dispatching and roller selection.  Go maps are modelled as association lists,
a channel send as an emitted value, and every fallible database or RPC call
as an oracle fixing the outcome of that call site.
-/

namespace Scroll

/-- Status of a roller inside a proof generation session (rollerStatus in
manager.go). -/
inductive RollerStatus
  | assigned
  | proofValid
  | proofInvalid
  deriving DecidableEq

/-- Persistent block task status (the orm.BlockStatus values used by the
manager: BlockUnassigned, BlockAssigned, BlockProved, BlockVerified,
BlockFailed). -/
inductive BlockStatus
  | unassigned
  | assigned
  | proved
  | verified
  | failed
  deriving DecidableEq

/-- Association list lookup, modelling Go map indexing. -/
def lookupA {κ α : Type} [DecidableEq κ] : List (κ × α) → κ → Option α
  | [], _ => none
  | (k1, v) :: rest, k => if k1 = k then some v else lookupA rest k

/-- Association list update, modelling Go map assignment (overwrite the first
binding of the key or append a fresh one). -/
def setA {κ α : Type} [DecidableEq κ] : List (κ × α) → κ → α → List (κ × α)
  | [], k, v => [(k, v)]
  | (k1, v1) :: rest, k, v =>
      if k1 = k then (k, v) :: rest else (k1, v1) :: setA rest k v

/-- Association list removal, modelling Go map delete. -/
def eraseA {κ α : Type} [DecidableEq κ] (l : List (κ × α)) (k : κ) : List (κ × α) :=
  l.filter (fun p => decide (p.1 ≠ k))

/-- A proof generation session (struct session in manager.go).  The start time
and the finish channel are kept outside the structure: proof time is irrelevant
to the verified claims and a channel send is modelled as an emitted value. -/
structure Session where
  id : Nat
  rollers : List (String × RollerStatus)
  roller_names : List (String × String)
  deriving DecidableEq

/-- A connected roller: identity public key, display name and the closed flag
of the underlying connection. -/
structure Roller where
  pk : String
  name : String
  closed : Bool
  deriving DecidableEq

/-- IsRollerIdle: a roller is idle unless some active session lists its public
key with status assigned. -/
def isRollerIdle (sessions : List (Nat × Session)) (hexPk : String) : Bool :=
  !(sessions.any (fun p =>
      p.2.rollers.any (fun q => q.1 == hexPk && q.2 == RollerStatus.assigned)))

/-- GetNumberOfIdleRollers: the number of connections whose public key is
idle. -/
def getNumberOfIdleRollers (sessions : List (Nat × Session)) (conns : List Roller) : Nat :=
  (conns.filter (fun r => isRollerIdle sessions r.pk)).length

/-- One step of snapshot shrinking in SelectRoller: the examined index receives
the old head and the head is dropped, removing exactly the examined element
(Go: allRollers[idx], allRollers = allRollers[0], allRollers[1:]). -/
def removeSwap : List Roller → Nat → List Roller
  | [], _ => []
  | x :: xs, idx => ((x :: xs).set idx x).tail

/-- SelectRoller loop on the local snapshot.  The random index of each
iteration is taken from the choice oracle modulo the current length; closed or
busy rollers are removed from the snapshot; the iteration count is threaded
through the accumulator.  The fuel argument equals the snapshot length at
every call, since each iteration removes exactly one element; it makes the
recursion structural and bounds the loop by the snapshot length.  Deleting a
closed connection from the registry is an effect on the external connection
set and is not tracked here. -/
def selectRollerAux (sessions : List (Nat × Session)) :
    Nat → List Roller → List Nat → Nat → Option Roller × Nat
  | 0, _, _, n => (none, n)
  | _ + 1, [], _, n => (none, n)
  | fuel + 1, x :: xs, choices, n =>
      let idx := choices.headD 0 % (x :: xs).length
      let conn := (x :: xs).getD idx x
      if conn.closed then
        selectRollerAux sessions fuel (removeSwap (x :: xs) idx) choices.tail (n + 1)
      else if isRollerIdle sessions conn.pk then
        (some conn, n + 1)
      else
        selectRollerAux sessions fuel (removeSwap (x :: xs) idx) choices.tail (n + 1)

/-- SelectRoller: run the selection loop on a snapshot of the registry,
returning the selected roller (or none) and the number of iterations. -/
def selectRoller (sessions : List (Nat × Session)) (conns : List Roller)
    (choices : List Nat) : Option Roller × Nat :=
  selectRollerAux sessions conns.length conns choices 0

/-- Fetch step of one tick of Loop (manager.go lines 176 to 191): with an empty
local buffer and a database present, query for unassigned tasks with limit
equal to the idle roller count; otherwise keep the buffer.  Returns the new
buffer together with the number of task store queries issued. -/
def loopFetch (traces : List Nat) (ormPresent : Bool) (numIdleRollers : Nat)
    (unassignedTasks : List Nat) (queryOk : Bool) : List Nat × Nat :=
  if traces.isEmpty && ormPresent then
    if queryOk then (unassignedTasks.take numIdleRollers, 1) else (traces, 1)
  else (traces, 0)

/-- An incoming proof message (message.ProofMsg): session id, whether the
roller reported StatusOk, and its error text otherwise.  The proof blobs are
opaque and carried only through the oracle outcomes. -/
structure ProofMsg where
  id : Nat
  statusOk : Bool
  error : String
  deriving DecidableEq

/-- Outcomes of the database calls made by one HandleZkProof call, one field
per call site: the failed status write, the proof content write, the proved
status write, the block result fetch before verification (its error and
whether the result list is empty), the final status write, and the deferred
rollback write. -/
structure DbOracle where
  updateFailedOk : Bool
  updateProofOk : Bool
  updateProvedOk : Bool
  getResultsErr : Option String
  getResultsEmpty : Bool
  updateFinalOk : Bool
  rollbackOk : Bool
  deriving DecidableEq

/-- Outcome of the verifier call: whether a verifier is configured, the clean
verdict, and an RPC error overriding the verdict. -/
structure VerOracle where
  configured : Bool
  result : Bool
  err : Option String
  deriving DecidableEq

/-- Result of the body of HandleZkProof, before the deferred finalisation:
returned error, task store, failed session map, successful status writes in
order, the success flag and the recorded database error flag. -/
structure BodyOut where
  res : Option String
  tasks : List (Nat × BlockStatus)
  failed : List (Nat × String)
  writes : List BlockStatus
  success : Bool
  dbErr : Bool
  deriving DecidableEq

/-- Outcome record of one HandleZkProof call: returned error, task store,
failed session map, successful status writes in order, the value sent on the
finish channel, and whether the dbErr variable ended non nil. -/
structure HandleOut where
  res : Option String
  tasks : List (Nat × BlockStatus)
  failed : List (Nat × String)
  writes : List BlockStatus
  signal : Option (String × RollerStatus)
  dbErr : Bool
  deriving DecidableEq

/-- Modelled from the spec: newSessionInfo and the SessionInfo structure live
outside the given sources; per the spec a FailedSessionInfo is a snapshot of
the failed session plus an error string, so the map retains the error string
keyed by the session id.  addFailedSession itself is manager.go line 563. -/
def addFailedSession (failed : List (Nat × String)) (s : Session) (errMsg : String) :
    List (Nat × String) :=
  setA failed s.id errMsg

/-- Final status write of HandleZkProof (manager.go lines 344 to 358): the
task becomes verified on success and failed otherwise; a verifier error was
recorded in the failed session map just before.  The writes list carries the
earlier proved write. -/
def handleFinal (s : Session) (failed : List (Nat × String))
    (tasks1 : List (Nat × BlockStatus)) (msg : ProofMsg) (db : DbOracle)
    (success : Bool) (verErr : Option String) : BodyOut :=
  let failed1 := match verErr with
    | some e => addFailedSession failed s e
    | none => failed
  let status : BlockStatus := if success then .verified else .failed
  if db.updateFinalOk then
    ⟨none, setA tasks1 msg.id status, failed1, [.proved, status], success, false⟩
  else
    ⟨some "failed to update blockResult status", tasks1, failed1, [.proved], success, true⟩

/-- Body of HandleZkProof after the eligibility checks and before the deferred
finalisation (manager.go lines 298 to 358).  A roller reported failure writes
the failed status and records the failed session; otherwise the proof content
and the proved status are stored, the verifier consulted when configured (a
verifier error is recorded and treated as a false verdict), and the final
status written. -/
def handleBody (s : Session) (failed : List (Nat × String))
    (tasks : List (Nat × BlockStatus)) (msg : ProofMsg)
    (db : DbOracle) (ver : VerOracle) : BodyOut :=
  if !msg.statusOk then
    if db.updateFailedOk then
      ⟨none, setA tasks msg.id .failed, addFailedSession failed s msg.error,
        [.failed], false, false⟩
    else
      ⟨none, tasks, addFailedSession failed s msg.error, [], false, true⟩
  else if !db.updateProofOk then
    ⟨some "failed to store proof into db", tasks, failed, [], false, true⟩
  else if !db.updateProvedOk then
    ⟨some "failed to update blockResult status", tasks, failed, [], false, true⟩
  else
    let tasks1 := setA tasks msg.id .proved
    if ver.configured then
      if db.getResultsEmpty then
        ⟨db.getResultsErr, tasks1, failed, [.proved], false, false⟩
      else
        match ver.err with
        | some e => handleFinal s failed tasks1 msg db false (some e)
        | none => handleFinal s failed tasks1 msg db ver.result none
    else
      handleFinal s failed tasks1 msg db true none

/-- Deferred finalisation of HandleZkProof (manager.go lines 279 to 296): on a
recorded database error the task is rolled back to unassigned (best effort),
then the resulting roller status is sent on the finish channel. -/
def handleFinish (pk : String) (id : Nat) (rollbackOk : Bool) (b : BodyOut) : HandleOut :=
  let rolled := b.dbErr && rollbackOk
  let tasks2 := if rolled then setA b.tasks id .unassigned else b.tasks
  let writes2 := if rolled then b.writes ++ [.unassigned] else b.writes
  let st : RollerStatus := if b.success && !b.dbErr then .proofValid else .proofInvalid
  ⟨b.res, tasks2, b.failed, writes2, some (pk, st), b.dbErr⟩

/-- HandleZkProof: session lookup, eligibility checks, body and deferred
finalisation.  A missing session or a non participating roller is rejected
without effects; a roller already recorded proofValid is answered with success
and no effects. -/
def handleZkProof (sessions : List (Nat × Session)) (failed : List (Nat × String))
    (tasks : List (Nat × BlockStatus)) (pk : String) (msg : ProofMsg)
    (db : DbOracle) (ver : VerOracle) : HandleOut :=
  match lookupA sessions msg.id with
  | none => ⟨some "proof generation session does not exist", tasks, failed, [], none, false⟩
  | some s =>
    match lookupA s.rollers pk with
    | none =>
        ⟨some "roller is not eligible to partake in proof session",
          tasks, failed, [], none, false⟩
    | some rst =>
      if rst = .proofValid then
        ⟨none, tasks, failed, [], none, false⟩
      else
        handleFinish pk msg.id db.rollbackOk (handleBody s failed tasks msg db ver)

/-- Result of the deadline branch of CollectProofs: session table, failed
session map, task store and the successful status writes. -/
structure CollectOut where
  sessions : List (Nat × Session)
  failed : List (Nat × String)
  tasks : List (Nat × BlockStatus)
  writes : List BlockStatus
  deriving DecidableEq

/-- Message recorded when a session ends without any valid proof. -/
def noValidProofsMsg : String :=
  "proof generation session ended without receiving any valid proofs"

/-- Deadline branch of CollectProofs (manager.go lines 367 to 404): gather the
rollers holding a valid proof; when there are none, record the failed session
and set the task failed (the write may itself fail); in every case the session
is deleted from the table. -/
def collectProofsFinal (sessions : List (Nat × Session)) (failed : List (Nat × String))
    (tasks : List (Nat × BlockStatus)) (id : Nat) (s : Session) (dbOk : Bool) :
    CollectOut :=
  let participatingRollers :=
    (s.rollers.filter (fun p => p.2 == RollerStatus.proofValid)).map (fun p => p.1)
  if participatingRollers.isEmpty then
    let failed1 := addFailedSession failed s noValidProofsMsg
    if dbOk then
      ⟨eraseA sessions id, failed1, setA tasks id .failed, [.failed]⟩
    else
      ⟨eraseA sessions id, failed1, tasks, []⟩
  else
    ⟨eraseA sessions id, failed, tasks, []⟩

/-- Finish channel branch of CollectProofs (manager.go lines 405 to 408): the
reported roller status is written into the rollers map of the session, which
is shared with the session table entry. -/
def applyFinish (sessions : List (Nat × Session)) (id : Nat)
    (ret : String × RollerStatus) : List (Nat × Session) :=
  match lookupA sessions id with
  | none => sessions
  | some s => setA sessions id { s with rollers := setA s.rollers ret.1 ret.2 }

/-- Outcomes of the calls made by one StartProofGenerationSession call: the
random choices of the selection loop, the trace message serialisation, the
send to the roller, the assigned status write and the deferred rollback
write. -/
structure StartOracle where
  choices : List Nat
  marshalOk : Bool
  sendOk : Bool
  assignOk : Bool
  rollbackOk : Bool
  deriving DecidableEq

/-- Outcome record of one StartProofGenerationSession call. -/
structure StartOut where
  ok : Bool
  sessions : List (Nat × Session)
  tasks : List (Nat × BlockStatus)
  writes : List BlockStatus
  deriving DecidableEq

/-- StartProofGenerationSession (manager.go lines 429 to 488): select a roller,
serialise and send the block traces message, insert the session keyed by the
block number, then write the assigned status; when that write fails the
deferred block resets the task to unassigned (best effort).  The session stays
in the table in every successful send path. -/
def startProofGenerationSession (sessions : List (Nat × Session))
    (tasks : List (Nat × BlockStatus)) (conns : List Roller) (id : Nat)
    (o : StartOracle) : StartOut :=
  match (selectRoller sessions conns o.choices).1 with
  | none => ⟨false, sessions, tasks, []⟩
  | some roller =>
    if roller.closed then ⟨false, sessions, tasks, []⟩
    else if !o.marshalOk then ⟨false, sessions, tasks, []⟩
    else if !o.sendOk then ⟨false, sessions, tasks, []⟩
    else
      let s : Session := ⟨id, [(roller.pk, .assigned)], [(roller.pk, roller.name)]⟩
      let sessions1 := setA sessions id s
      if o.assignOk then
        ⟨true, sessions1, setA tasks id .assigned, [.assigned]⟩
      else if o.rollbackOk then
        ⟨true, sessions1, setA tasks id .unassigned, [.unassigned]⟩
      else
        ⟨true, sessions1, tasks, []⟩

/-- Write sequences the specification allows for a single task across a run,
given as the writes following the initial unassigned state. -/
def claimedWriteSeqs : List (List BlockStatus) :=
  [[.assigned, .proved, .verified], [.assigned, .proved, .failed],
   [.assigned, .failed], [.assigned, .unassigned]]

/-- Boolean test that the first list is an initial segment of the second. -/
def initSegB {α : Type} [DecidableEq α] : List α → List α → Bool
  | [], _ => true
  | _ :: _, [] => false
  | a :: xs, b :: ys => a == b && initSegB xs ys

/-- Status writes of a concrete run on task 1: the session is started, the
single roller first reports a failed proof, the collector records the
proofInvalid signal, and the roller then resubmits a proof that verifies. -/
def resubmitRunWrites : List BlockStatus :=
  let conns : List Roller := [⟨"p", "n", false⟩]
  let st := startProofGenerationSession [] [(1, .unassigned)] conns 1
    ⟨[0], true, true, true, true⟩
  let dbOk : DbOracle := ⟨true, true, true, none, false, true, true⟩
  let verOk : VerOracle := ⟨true, true, none⟩
  let o1 := handleZkProof st.sessions [] st.tasks "p" ⟨1, false, "oom"⟩ dbOk verOk
  let s1 := match o1.signal with
    | some ret => applyFinish st.sessions 1 ret
    | none => st.sessions
  let o2 := handleZkProof s1 o1.failed o1.tasks "p" ⟨1, true, ""⟩ dbOk verOk
  st.writes ++ o1.writes ++ o2.writes

/-- Atomic actions of the proof handler (reader side) and of the deadline
branch of the collector (writer side) on the session table. -/
inductive Act
  | rlock
  | look
  | send
  | runlock
  | wlock
  | del
  | wunlock
  deriving DecidableEq

/-- Action sequence of HandleZkProof on the session table: acquire the read
lock, look the session up, send on the finish channel in the deferred block,
release the read lock. -/
def handlerProg : List Act := [.rlock, .look, .send, .runlock]

/-- Action sequence of the deadline branch of CollectProofs on the session
table: acquire the write lock, delete the session, release the write lock. -/
def collectorProg : List Act := [.wlock, .del, .wunlock]

/-- All merges of two action sequences, preserving the order within each; the
fuel argument is the sum of the lengths and only makes the recursion
structural. -/
def interleavingsAux {α : Type} : Nat → List α → List α → List (List α)
  | _, [], ys => [ys]
  | _, x :: xs, [] => [x :: xs]
  | 0, _ :: _, _ :: _ => []
  | fuel + 1, x :: xs, y :: ys =>
      (interleavingsAux fuel xs (y :: ys)).map (fun t => x :: t) ++
      (interleavingsAux fuel (x :: xs) ys).map (fun t => y :: t)

/-- All merges of two action sequences, preserving the order within each. -/
def interleavings {α : Type} (xs ys : List α) : List (List α) :=
  interleavingsAux (xs.length + ys.length) xs ys

/-- Shared state of the interleaving model: reader count and writer flag of
the session table lock, whether the session is still present, and whether the
handler found it at its lookup (when the lookup misses, HandleZkProof returns
before registering the deferred send). -/
structure CSt where
  readers : Nat
  writer : Bool
  present : Bool
  found : Bool
  deriving DecidableEq

/-- One action of the interleaving model; none marks a schedule the lock makes
impossible at this point (the acquisition would block instead). -/
def cstep (st : CSt) : Act → Option CSt
  | .rlock => if st.writer then none else some { st with readers := st.readers + 1 }
  | .look => some { st with found := st.present }
  | .send => some st
  | .runlock => some { st with readers := st.readers - 1 }
  | .wlock =>
      if st.writer || !(st.readers == 0) then none
      else some { st with writer := true }
  | .del => some { st with present := false }
  | .wunlock => some { st with writer := false }

/-- A trace is safe when every send that actually happens (the handler found
the session) happens while the session is still present; schedules the lock
forbids are vacuously safe. -/
def traceSafe (st : CSt) : List Act → Bool
  | [] => true
  | a :: rest =>
    match cstep st a with
    | none => true
    | some st2 => (a != .send || !st.found || st.present) && traceSafe st2 rest

theorem lookupA_setA_self {κ α : Type} [DecidableEq κ] (l : List (κ × α)) (k : κ) (v : α) :
    lookupA (setA l k v) k = some v := by
  induction l with
  | nil => simp [setA, lookupA]
  | cons p rest ih =>
    obtain ⟨k1, v1⟩ := p
    by_cases h : k1 = k <;> simp [setA, lookupA, h, ih]

theorem lookupA_eraseA_self {κ α : Type} [DecidableEq κ] (l : List (κ × α)) (k : κ) :
    lookupA (eraseA l k) k = none := by
  induction l with
  | nil => simp [eraseA, lookupA]
  | cons p rest ih =>
    obtain ⟨k1, v1⟩ := p
    by_cases h : k1 = k <;> simp_all [eraseA, lookupA, List.filter_cons, h]

/-- C1 counterexample: with a single idle roller, when the assigned status
update fails, StartProofGenerationSession leaves the inserted session in the
session table, while the claim requires the table to hold no session with
that id after the failed call. -/
theorem c1_counterexample :
    (startProofGenerationSession [] [(5, BlockStatus.unassigned)]
      [⟨"p", "n", false⟩] 5 ⟨[0], true, true, false, true⟩).ok = true ∧
    lookupA (startProofGenerationSession [] [(5, BlockStatus.unassigned)]
        [⟨"p", "n", false⟩] 5 ⟨[0], true, true, false, true⟩).sessions 5
      = some ⟨5, [("p", .assigned)], [("p", "n")]⟩ := by
  decide

/-- C1 amended: when the assigned status update fails,
StartProofGenerationSession resets the task status to unassigned (when the
rollback write succeeds) but the inserted session stays in the session table,
and the call still reports success. -/
theorem c1_failed_update_keeps_session (sessions : List (Nat × Session))
    (tasks : List (Nat × BlockStatus)) (conns : List Roller) (id : Nat)
    (o : StartOracle) (r : Roller)
    (hsel : (selectRoller sessions conns o.choices).1 = some r)
    (hcl : r.closed = false) (hm : o.marshalOk = true) (hsd : o.sendOk = true)
    (ha : o.assignOk = false) (hr : o.rollbackOk = true) :
    (startProofGenerationSession sessions tasks conns id o).ok = true ∧
    lookupA (startProofGenerationSession sessions tasks conns id o).sessions id
      = some ⟨id, [(r.pk, .assigned)], [(r.pk, r.name)]⟩ ∧
    lookupA (startProofGenerationSession sessions tasks conns id o).tasks id
      = some .unassigned := by
  unfold startProofGenerationSession
  rw [hsel]
  simp [hcl, hm, hsd, ha, hr, lookupA_setA_self]

theorem c1_failed_update_keeps_session_witness :
    (selectRoller [] [⟨"p", "n", false⟩] [0]).1 = some ⟨"p", "n", false⟩ ∧
    ((startProofGenerationSession [] [(5, BlockStatus.unassigned)]
        [⟨"p", "n", false⟩] 5 ⟨[0], true, true, false, true⟩).ok = true ∧
      lookupA (startProofGenerationSession [] [(5, BlockStatus.unassigned)]
          [⟨"p", "n", false⟩] 5 ⟨[0], true, true, false, true⟩).sessions 5
        = some ⟨5, [("p", .assigned)], [("p", "n")]⟩ ∧
      lookupA (startProofGenerationSession [] [(5, BlockStatus.unassigned)]
          [⟨"p", "n", false⟩] 5 ⟨[0], true, true, false, true⟩).tasks 5
        = some .unassigned) :=
  ⟨by decide,
    c1_failed_update_keeps_session [] [(5, BlockStatus.unassigned)]
      [⟨"p", "n", false⟩] 5 ⟨[0], true, true, false, true⟩ ⟨"p", "n", false⟩
      (by decide) rfl rfl rfl rfl rfl⟩

/-- C2 counterexample: with an empty buffer, a database present and zero idle
rollers, the loop still issues one task store query, while the claim says no
query is issued that tick. -/
theorem c2_counterexample :
    getNumberOfIdleRollers [] [] = 0 ∧
    loopFetch [] true (getNumberOfIdleRollers [] []) [42] true = ([], 1) ∧
    ¬(loopFetch [] true (getNumberOfIdleRollers [] []) [42] true).2 = 0 := by
  decide

/-- C2 amended: with an empty buffer and zero idle rollers the loop issues
exactly one task store query, whose limit of zero returns no tasks, so the
buffer stays empty. -/
theorem c2_zero_idle_one_empty_query (sessions : List (Nat × Session))
    (conns : List Roller) (unassignedTasks : List Nat) (queryOk : Bool)
    (h0 : getNumberOfIdleRollers sessions conns = 0) :
    loopFetch [] true (getNumberOfIdleRollers sessions conns) unassignedTasks queryOk
      = ([], 1) := by
  rw [h0]
  cases queryOk <;> simp [loopFetch]

theorem c2_zero_idle_one_empty_query_witness :
    getNumberOfIdleRollers [] [] = 0 ∧
    loopFetch [] true (getNumberOfIdleRollers [] []) [42] true = ([], 1) :=
  ⟨by decide, c2_zero_idle_one_empty_query [] [] [42] true (by decide)⟩

/-- C3 counterexample: after a first transition assigned to proofInvalid, a
second submission from the same roller is processed again rather than being a
no op: it writes new task statuses, changes the task status from failed to
verified, and signals proofValid for the same identity. -/
theorem c3_counterexample :
    (handleZkProof [(1, ⟨1, [("p", .assigned)], [("p", "n")]⟩)] []
        [(1, BlockStatus.assigned)] "p" ⟨1, false, "oom"⟩
        ⟨true, true, true, none, false, true, true⟩ ⟨true, true, none⟩).signal
      = some ("p", .proofInvalid) ∧
    lookupA (handleZkProof [(1, ⟨1, [("p", .assigned)], [("p", "n")]⟩)] []
        [(1, BlockStatus.assigned)] "p" ⟨1, false, "oom"⟩
        ⟨true, true, true, none, false, true, true⟩ ⟨true, true, none⟩).tasks 1
      = some .failed ∧
    (handleZkProof [(1, ⟨1, [("p", .proofInvalid)], [("p", "n")]⟩)] [(1, "oom")]
        [(1, BlockStatus.failed)] "p" ⟨1, true, ""⟩
        ⟨true, true, true, none, false, true, true⟩ ⟨true, true, none⟩).res = none ∧
    (handleZkProof [(1, ⟨1, [("p", .proofInvalid)], [("p", "n")]⟩)] [(1, "oom")]
        [(1, BlockStatus.failed)] "p" ⟨1, true, ""⟩
        ⟨true, true, true, none, false, true, true⟩ ⟨true, true, none⟩).writes
      = [.proved, .verified] ∧
    lookupA (handleZkProof [(1, ⟨1, [("p", .proofInvalid)], [("p", "n")]⟩)] [(1, "oom")]
        [(1, BlockStatus.failed)] "p" ⟨1, true, ""⟩
        ⟨true, true, true, none, false, true, true⟩ ⟨true, true, none⟩).tasks 1
      = some .verified ∧
    (handleZkProof [(1, ⟨1, [("p", .proofInvalid)], [("p", "n")]⟩)] [(1, "oom")]
        [(1, BlockStatus.failed)] "p" ⟨1, true, ""⟩
        ⟨true, true, true, none, false, true, true⟩ ⟨true, true, none⟩).signal
      = some ("p", .proofValid) := by
  decide

/-- C3 amended: only the transition to proofValid is final: a submission from
a roller already recorded proofValid is answered with success and leaves the
task store, the failed session map, the writes and the signal untouched; after
proofInvalid a resubmission is processed anew. -/
theorem c3_proofValid_resubmission_noop (sessions : List (Nat × Session))
    (failed : List (Nat × String)) (tasks : List (Nat × BlockStatus))
    (pk : String) (msg : ProofMsg) (db : DbOracle) (ver : VerOracle) (s : Session)
    (hs : lookupA sessions msg.id = some s)
    (hp : lookupA s.rollers pk = some .proofValid) :
    handleZkProof sessions failed tasks pk msg db ver
      = ⟨none, tasks, failed, [], none, false⟩ := by
  unfold handleZkProof
  rw [hs]
  simp [hp]

theorem c3_proofValid_resubmission_noop_witness :
    lookupA [(1, (⟨1, [("p", .proofValid)], [("p", "n")]⟩ : Session))] 1
      = some ⟨1, [("p", .proofValid)], [("p", "n")]⟩ ∧
    handleZkProof [(1, ⟨1, [("p", .proofValid)], [("p", "n")]⟩)] []
        [(1, BlockStatus.verified)] "p" ⟨1, true, ""⟩
        ⟨true, true, true, none, false, true, true⟩ ⟨true, true, none⟩
      = ⟨none, [(1, BlockStatus.verified)], [], [], none, false⟩ :=
  ⟨by decide,
    c3_proofValid_resubmission_noop
      [(1, ⟨1, [("p", .proofValid)], [("p", "n")]⟩)] []
      [(1, BlockStatus.verified)] "p" ⟨1, true, ""⟩
      ⟨true, true, true, none, false, true, true⟩ ⟨true, true, none⟩
      ⟨1, [("p", .proofValid)], [("p", "n")]⟩ (by decide) (by decide)⟩

/-- C9: when the trace message cannot be serialised or the send to the
selected roller fails, StartProofGenerationSession returns false with the
session table and the task store unchanged and no status write. -/
theorem c9_send_failure_no_mutation (sessions : List (Nat × Session))
    (tasks : List (Nat × BlockStatus)) (conns : List Roller) (id : Nat)
    (o : StartOracle) (r : Roller)
    (hsel : (selectRoller sessions conns o.choices).1 = some r)
    (hcl : r.closed = false)
    (h : o.marshalOk = false ∨ o.sendOk = false) :
    startProofGenerationSession sessions tasks conns id o
      = ⟨false, sessions, tasks, []⟩ := by
  unfold startProofGenerationSession
  rw [hsel]
  rcases h with h | h
  · simp [hcl, h]
  · cases hm : o.marshalOk <;> simp [hcl, h, hm]

theorem c9_send_failure_no_mutation_witness :
    (selectRoller [] [⟨"p", "n", false⟩] [0]).1 = some ⟨"p", "n", false⟩ ∧
    startProofGenerationSession [] [(5, BlockStatus.unassigned)]
        [⟨"p", "n", false⟩] 5 ⟨[0], true, false, true, true⟩
      = ⟨false, [], [(5, BlockStatus.unassigned)], []⟩ :=
  ⟨by decide,
    c9_send_failure_no_mutation [] [(5, BlockStatus.unassigned)]
      [⟨"p", "n", false⟩] 5 ⟨[0], true, false, true, true⟩ ⟨"p", "n", false⟩
      (by decide) rfl (Or.inr rfl)⟩

theorem removeSwap_length (x : Roller) (xs : List Roller) (idx : Nat) :
    (removeSwap (x :: xs) idx).length = xs.length := by
  simp [removeSwap, List.length_tail, List.length_set]

theorem handleBody_writes (s : Session) (failed : List (Nat × String))
    (tasks : List (Nat × BlockStatus)) (msg : ProofMsg) (db : DbOracle)
    (ver : VerOracle) :
    ((handleBody s failed tasks msg db ver).writes = [] ∨
     (handleBody s failed tasks msg db ver).writes = [.failed] ∨
     (handleBody s failed tasks msg db ver).writes = [.proved] ∨
     (handleBody s failed tasks msg db ver).writes = [.proved, .verified] ∨
     (handleBody s failed tasks msg db ver).writes = [.proved, .failed]) ∧
    ((handleBody s failed tasks msg db ver).dbErr = true →
     (handleBody s failed tasks msg db ver).writes = [] ∨
     (handleBody s failed tasks msg db ver).writes = [.proved]) := by
  cases hve : ver.err <;>
    simp only [handleBody, handleFinal, hve] <;>
    split_ifs <;> simp_all

theorem handleFinish_writes_mem (pk : String) (id : Nat) (rollbackOk : Bool)
    (b : BodyOut)
    (h1 : b.writes = [] ∨ b.writes = [.failed] ∨ b.writes = [.proved] ∨
          b.writes = [.proved, .verified] ∨ b.writes = [.proved, .failed])
    (h2 : b.dbErr = true → b.writes = [] ∨ b.writes = [.proved]) :
    (handleFinish pk id rollbackOk b).writes ∈
      [([] : List BlockStatus), [.unassigned], [.failed], [.proved],
       [.proved, .unassigned], [.proved, .verified], [.proved, .failed]] := by
  unfold handleFinish
  cases hr : rollbackOk <;> by_cases hd : b.dbErr = true
  · rcases h1 with h | h | h | h | h <;> simp_all
  · rcases h1 with h | h | h | h | h <;> simp_all
  · rcases h2 hd with h | h <;> simp_all
  · rcases h1 with h | h | h | h | h <;> simp_all

/-- C4 counterexample: the concrete resubmission run writes assigned, failed,
proved, verified for task 1, and this write sequence is an initial segment of
none of the four sequences the claim allows. -/
theorem c4_counterexample :
    resubmitRunWrites = [.assigned, .failed, .proved, .verified] ∧
    claimedWriteSeqs.all (fun cs => !initSegB resubmitRunWrites cs) = true := by
  decide

/-- C4 amended: within a single HandleZkProof call the successful status
writes form one of seven segments (empty, unassigned alone, failed alone,
proved alone, or proved followed by unassigned, verified or failed); because a
roller whose proof ended proofInvalid may resubmit, a whole run can chain
segments and produce sequences such as assigned, failed, proved, verified,
outside the four claimed sequences. -/
theorem c4_call_write_segments (sessions : List (Nat × Session))
    (failed : List (Nat × String)) (tasks : List (Nat × BlockStatus))
    (pk : String) (msg : ProofMsg) (db : DbOracle) (ver : VerOracle) :
    (handleZkProof sessions failed tasks pk msg db ver).writes ∈
      [([] : List BlockStatus), [.unassigned], [.failed], [.proved],
       [.proved, .unassigned], [.proved, .verified], [.proved, .failed]] := by
  unfold handleZkProof
  cases h1 : lookupA sessions msg.id with
  | none => simp [h1]
  | some s =>
    simp only [h1]
    cases h2 : lookupA s.rollers pk with
    | none => simp [h2]
    | some rst =>
      simp only [h2]
      by_cases hv : rst = RollerStatus.proofValid
      · simp [hv]
      · simp only [if_neg hv]
        exact handleFinish_writes_mem pk msg.id db.rollbackOk _
          (handleBody_writes s failed tasks msg db ver).1
          (handleBody_writes s failed tasks msg db ver).2

/-- C5 counterexample: when the block result fetch before verification fails
with the result list empty, HandleZkProof returns that error, a task store
error, but the task keeps status proved with no rollback to unassigned, while
the signal still carries proofInvalid. -/
theorem c5_counterexample :
    (handleZkProof [(1, ⟨1, [("p", .assigned)], [("p", "n")]⟩)] []
        [(1, BlockStatus.assigned)] "p" ⟨1, true, ""⟩
        ⟨true, true, true, some "db down", true, true, true⟩ ⟨true, true, none⟩).res
      = some "db down" ∧
    lookupA (handleZkProof [(1, ⟨1, [("p", .assigned)], [("p", "n")]⟩)] []
        [(1, BlockStatus.assigned)] "p" ⟨1, true, ""⟩
        ⟨true, true, true, some "db down", true, true, true⟩ ⟨true, true, none⟩).tasks 1
      = some .proved ∧
    (handleZkProof [(1, ⟨1, [("p", .assigned)], [("p", "n")]⟩)] []
        [(1, BlockStatus.assigned)] "p" ⟨1, true, ""⟩
        ⟨true, true, true, some "db down", true, true, true⟩ ⟨true, true, none⟩).signal
      = some ("p", .proofInvalid) := by
  decide

/-- C5 amended: when one of the four update calls fails, so the dbErr variable
ends non nil, and the rollback write succeeds, HandleZkProof ends with the
task reset to unassigned and the signal (sender, proofInvalid); an error of
the block result fetch before verification instead returns the error with no
rollback. -/
theorem c5_dberr_rollback_and_signal (sessions : List (Nat × Session))
    (failed : List (Nat × String)) (tasks : List (Nat × BlockStatus))
    (pk : String) (msg : ProofMsg) (db : DbOracle) (ver : VerOracle)
    (s : Session) (rst : RollerStatus)
    (hs : lookupA sessions msg.id = some s)
    (hp : lookupA s.rollers pk = some rst)
    (hv : ¬rst = RollerStatus.proofValid)
    (hr : db.rollbackOk = true)
    (hd : (handleZkProof sessions failed tasks pk msg db ver).dbErr = true) :
    lookupA (handleZkProof sessions failed tasks pk msg db ver).tasks msg.id
      = some .unassigned ∧
    (handleZkProof sessions failed tasks pk msg db ver).signal
      = some (pk, .proofInvalid) := by
  simp only [handleZkProof, hs, hp, if_neg hv] at hd ⊢
  simp only [handleFinish] at hd
  simp [handleFinish, hd, hr, lookupA_setA_self]

theorem c5_dberr_rollback_and_signal_witness :
    (handleZkProof [(1, ⟨1, [("p", .assigned)], [("p", "n")]⟩)] []
        [(1, BlockStatus.assigned)] "p" ⟨1, true, ""⟩
        ⟨true, true, false, none, false, true, true⟩ ⟨false, false, none⟩).dbErr = true ∧
    (lookupA (handleZkProof [(1, ⟨1, [("p", .assigned)], [("p", "n")]⟩)] []
        [(1, BlockStatus.assigned)] "p" ⟨1, true, ""⟩
        ⟨true, true, false, none, false, true, true⟩ ⟨false, false, none⟩).tasks 1
      = some .unassigned ∧
    (handleZkProof [(1, ⟨1, [("p", .assigned)], [("p", "n")]⟩)] []
        [(1, BlockStatus.assigned)] "p" ⟨1, true, ""⟩
        ⟨true, true, false, none, false, true, true⟩ ⟨false, false, none⟩).signal
      = some ("p", .proofInvalid)) :=
  ⟨by decide,
    c5_dberr_rollback_and_signal [(1, ⟨1, [("p", .assigned)], [("p", "n")]⟩)] []
      [(1, BlockStatus.assigned)] "p" ⟨1, true, ""⟩
      ⟨true, true, false, none, false, true, true⟩ ⟨false, false, none⟩
      ⟨1, [("p", .assigned)], [("p", "n")]⟩ .assigned
      (by decide) (by decide) (by decide) rfl (by decide)⟩

/-- C6: once the proof is stored and the task written proved, a verifier error
records the failed session and the task ends failed; a clean false verdict
ends the task failed with the failed session map untouched; a clean true
verdict ends the task verified. -/
theorem c6_verifier_error_vs_false (sessions : List (Nat × Session))
    (failed : List (Nat × String)) (tasks : List (Nat × BlockStatus))
    (pk : String) (msg : ProofMsg) (db : DbOracle) (ver : VerOracle)
    (s : Session) (rst : RollerStatus)
    (hs : lookupA sessions msg.id = some s)
    (hp : lookupA s.rollers pk = some rst)
    (hv : ¬rst = RollerStatus.proofValid)
    (hok : msg.statusOk = true)
    (h1 : db.updateProofOk = true) (h2 : db.updateProvedOk = true)
    (h3 : db.getResultsEmpty = false) (h4 : db.updateFinalOk = true)
    (hc : ver.configured = true) :
    (∀ e, ver.err = some e →
      (handleZkProof sessions failed tasks pk msg db ver).writes
        = [.proved, .failed] ∧
      (handleZkProof sessions failed tasks pk msg db ver).failed
        = addFailedSession failed s e ∧
      lookupA (handleZkProof sessions failed tasks pk msg db ver).tasks msg.id
        = some .failed) ∧
    (ver.err = none → ver.result = false →
      (handleZkProof sessions failed tasks pk msg db ver).writes
        = [.proved, .failed] ∧
      (handleZkProof sessions failed tasks pk msg db ver).failed = failed ∧
      lookupA (handleZkProof sessions failed tasks pk msg db ver).tasks msg.id
        = some .failed) ∧
    (ver.err = none → ver.result = true →
      (handleZkProof sessions failed tasks pk msg db ver).writes
        = [.proved, .verified] ∧
      (handleZkProof sessions failed tasks pk msg db ver).failed = failed ∧
      lookupA (handleZkProof sessions failed tasks pk msg db ver).tasks msg.id
        = some .verified) := by
  refine ⟨?_, ?_, ?_⟩
  · intro e he
    simp [handleZkProof, hs, hp, hv, handleBody, hok, h1, h2, h3, hc, he,
      handleFinal, h4, handleFinish, lookupA_setA_self]
  · intro he hres
    simp [handleZkProof, hs, hp, hv, handleBody, hok, h1, h2, h3, hc, he, hres,
      handleFinal, h4, handleFinish, lookupA_setA_self]
  · intro he hres
    simp [handleZkProof, hs, hp, hv, handleBody, hok, h1, h2, h3, hc, he, hres,
      handleFinal, h4, handleFinish, lookupA_setA_self]

theorem c6_verifier_error_vs_false_witness :
    (⟨true, true, some "boom"⟩ : VerOracle).err = some "boom" ∧
    ((handleZkProof [(1, ⟨1, [("p", .assigned)], [("p", "n")]⟩)] []
        [(1, BlockStatus.assigned)] "p" ⟨1, true, ""⟩
        ⟨true, true, true, none, false, true, true⟩ ⟨true, true, some "boom"⟩).writes
      = [.proved, .failed] ∧
    (handleZkProof [(1, ⟨1, [("p", .assigned)], [("p", "n")]⟩)] []
        [(1, BlockStatus.assigned)] "p" ⟨1, true, ""⟩
        ⟨true, true, true, none, false, true, true⟩ ⟨true, true, some "boom"⟩).failed
      = addFailedSession [] ⟨1, [("p", .assigned)], [("p", "n")]⟩ "boom" ∧
    lookupA (handleZkProof [(1, ⟨1, [("p", .assigned)], [("p", "n")]⟩)] []
        [(1, BlockStatus.assigned)] "p" ⟨1, true, ""⟩
        ⟨true, true, true, none, false, true, true⟩ ⟨true, true, some "boom"⟩).tasks 1
      = some .failed) :=
  ⟨rfl,
    (c6_verifier_error_vs_false [(1, ⟨1, [("p", .assigned)], [("p", "n")]⟩)] []
      [(1, BlockStatus.assigned)] "p" ⟨1, true, ""⟩
      ⟨true, true, true, none, false, true, true⟩ ⟨true, true, some "boom"⟩
      ⟨1, [("p", .assigned)], [("p", "n")]⟩ .assigned
      (by decide) (by decide) (by decide) rfl rfl rfl rfl rfl rfl).1 "boom" rfl⟩

/-- C7: at the deadline the collector deletes the session in every case; with
no roller in proofValid it records the failed session under the session id
with the exact timeout message and, when the status write succeeds, sets the
task failed; with at least one proofValid roller it leaves the task store and
the failed session map unchanged. -/
theorem c7_collect_deadline (sessions : List (Nat × Session))
    (failed : List (Nat × String)) (tasks : List (Nat × BlockStatus))
    (id : Nat) (s : Session) (dbOk : Bool) :
    ((s.rollers.filter (fun p => p.2 == RollerStatus.proofValid)).isEmpty = true →
      lookupA (collectProofsFinal sessions failed tasks id s dbOk).sessions id
        = none ∧
      lookupA (collectProofsFinal sessions failed tasks id s dbOk).failed s.id
        = some noValidProofsMsg ∧
      (dbOk = true →
        lookupA (collectProofsFinal sessions failed tasks id s dbOk).tasks id
          = some .failed)) ∧
    ((s.rollers.filter (fun p => p.2 == RollerStatus.proofValid)).isEmpty = false →
      lookupA (collectProofsFinal sessions failed tasks id s dbOk).sessions id
        = none ∧
      (collectProofsFinal sessions failed tasks id s dbOk).tasks = tasks ∧
      (collectProofsFinal sessions failed tasks id s dbOk).failed = failed) := by
  constructor
  · intro he
    have hfe : s.rollers.filter (fun p => p.2 == RollerStatus.proofValid) = [] := by
      simpa using he
    cases dbOk <;>
      simp [collectProofsFinal, hfe, addFailedSession, lookupA_setA_self,
        lookupA_eraseA_self]
  · intro he
    cases hfe : s.rollers.filter (fun p => p.2 == RollerStatus.proofValid) with
    | nil => rw [hfe] at he; simp at he
    | cons a l =>
      simp [collectProofsFinal, hfe, lookupA_eraseA_self]

theorem c7_collect_deadline_witness :
    ((⟨1, [("p", .proofInvalid)], [("p", "n")]⟩ : Session).rollers.filter
      (fun p => p.2 == RollerStatus.proofValid)).isEmpty = true ∧
    (lookupA (collectProofsFinal [(1, ⟨1, [("p", .proofInvalid)], [("p", "n")]⟩)] []
        [(1, BlockStatus.failed)] 1 ⟨1, [("p", .proofInvalid)], [("p", "n")]⟩ true).sessions 1
      = none ∧
    lookupA (collectProofsFinal [(1, ⟨1, [("p", .proofInvalid)], [("p", "n")]⟩)] []
        [(1, BlockStatus.failed)] 1 ⟨1, [("p", .proofInvalid)], [("p", "n")]⟩ true).failed 1
      = some noValidProofsMsg ∧
    (true = true →
      lookupA (collectProofsFinal [(1, ⟨1, [("p", .proofInvalid)], [("p", "n")]⟩)] []
          [(1, BlockStatus.failed)] 1 ⟨1, [("p", .proofInvalid)], [("p", "n")]⟩ true).tasks 1
        = some .failed)) :=
  ⟨by decide,
    (c7_collect_deadline [(1, ⟨1, [("p", .proofInvalid)], [("p", "n")]⟩)] []
      [(1, BlockStatus.failed)] 1 ⟨1, [("p", .proofInvalid)], [("p", "n")]⟩ true).1
      (by decide)⟩

/-- C8: in every interleaving of the proof handler and the deadline branch of
the collector that respects the session table lock, a send on the finish
channel never happens once the session was deleted: the handler holds the read
lock from the lookup through the send, and the collector deletes only under
the write lock. -/
theorem c8_no_send_after_delete :
    ∀ t ∈ interleavings handlerProg collectorProg,
      traceSafe ⟨0, false, true, false⟩ t = true := by
  decide

theorem c8_no_send_after_delete_witness :
    [Act.wlock, .del, .wunlock, .rlock, .look, .send, .runlock]
      ∈ interleavings handlerProg collectorProg ∧
    traceSafe ⟨0, false, true, false⟩
      [Act.wlock, .del, .wunlock, .rlock, .look, .send, .runlock] = true :=
  ⟨by decide,
    c8_no_send_after_delete
      [Act.wlock, .del, .wunlock, .rlock, .look, .send, .runlock] (by decide)⟩

theorem selectRollerAux_spec (sessions : List (Nat × Session)) :
    ∀ (fuel : Nat) (l : List Roller), l.length = fuel →
      ∀ (choices : List Nat) (n : Nat),
      (selectRollerAux sessions fuel l choices n).2 ≤ n + fuel ∧
      ∀ r, (selectRollerAux sessions fuel l choices n).1 = some r →
        r.closed = false ∧ isRollerIdle sessions r.pk = true := by
  intro fuel
  induction fuel with
  | zero =>
    intro l hl choices n
    simp [selectRollerAux]
  | succ fuel ih =>
    intro l hl choices n
    cases l with
    | nil => simp [selectRollerAux]
    | cons x xs =>
      have hx : xs.length = fuel := by simpa using hl
      simp only [selectRollerAux]
      split_ifs with hc hi
      · have h2 := ih (removeSwap (x :: xs) (choices.headD 0 % (x :: xs).length))
          (by rw [removeSwap_length]; exact hx) choices.tail (n + 1)
        have hb := h2.1
        exact ⟨by omega, h2.2⟩
      · refine ⟨by simp, ?_⟩
        intro r hr
        simp only [Option.some.injEq] at hr
        subst hr
        simp only [Bool.not_eq_true] at hc
        exact ⟨hc, hi⟩
      · have h2 := ih (removeSwap (x :: xs) (choices.headD 0 % (x :: xs).length))
          (by rw [removeSwap_length]; exact hx) choices.tail (n + 1)
        have hb := h2.1
        exact ⟨by omega, h2.2⟩

/-- C10: SelectRoller terminates after at most snapshot length iterations
(each iteration either returns or removes exactly one element from the local
snapshot) and returns either nil or a connection that is not closed and whose
identity is idle. -/
theorem c10_selectRoller_bound_and_result (sessions : List (Nat × Session))
    (conns : List Roller) (choices : List Nat) :
    (selectRoller sessions conns choices).2 ≤ conns.length ∧
    ∀ r, (selectRoller sessions conns choices).1 = some r →
      r.closed = false ∧ isRollerIdle sessions r.pk = true := by
  have h := selectRollerAux_spec sessions conns.length conns rfl choices 0
  simpa [selectRoller] using h

theorem c10_selectRoller_bound_and_result_witness :
    (selectRoller [] [⟨"c", "d", false⟩] [0]).1 = some ⟨"c", "d", false⟩ ∧
    (selectRoller [] [⟨"c", "d", false⟩] [0]).2 ≤ 1 ∧
    (⟨"c", "d", false⟩ : Roller).closed = false ∧
    isRollerIdle [] (⟨"c", "d", false⟩ : Roller).pk = true :=
  ⟨by decide,
    (c10_selectRoller_bound_and_result [] [⟨"c", "d", false⟩] [0]).1,
    ((c10_selectRoller_bound_and_result [] [⟨"c", "d", false⟩] [0]).2
      ⟨"c", "d", false⟩ (by decide)).1,
    ((c10_selectRoller_bound_and_result [] [⟨"c", "d", false⟩] [0]).2
      ⟨"c", "d", false⟩ (by decide)).2⟩

end Scroll
